import Mathlib

/-!
Shallow embedding of the sensor-ingestion and threshold-alerting pipeline
(`src/functions/ingestSensorData.ts`).  JS numbers are modelled as exact
rationals, nullable fields as `Option`, and fallible store calls as
`Except String`.  The try/catch structure of the handler is modelled by
explicit propagation of caught errors.
-/

namespace Cockpit

/-- One telemetry reading, mirroring the `SensorEvent` interface.
`value = none` models a JS `value` that is `null` or `undefined`. -/
structure SensorEvent where
  houseId : String
  eventType : String
  timestamp : String
  value : Option Rat
  stringValue : Option String
  boolValue : Option Bool
  deviceId : String
  quality : Option Int
deriving Repr, DecidableEq

/-- The house row returned by the `Houses` lookup query
(columns HouseId, BirdAgeInDays, Name). -/
structure House where
  houseId : String
  birdAgeInDays : Option Int
  name : String
deriving Repr, DecidableEq

/-- The threshold-policy row returned by `usp_GetThresholdsForAge`:
name, unit and four independently nullable bounds. -/
structure Threshold where
  name : String
  unit : String
  warningMin : Option Rat
  warningMax : Option Rat
  criticalMin : Option Rat
  criticalMax : Option Rat
deriving Repr, DecidableEq

/-- The row inserted into `Alerts`
(HouseId, Type, Severity, Metric, Value, Threshold, Message, IsActive). -/
structure Alert where
  houseId : String
  type : String
  severity : String
  metric : String
  value : Rat
  threshold : Option Rat
  message : String
  isActive : Bool
deriving Repr, DecidableEq

/-- JS `a || b` on a nullable number `a`: `a` is falsy when it is
`null`/`undefined` or `0`, in which case `b` is returned. -/
def jsOr (a : Option Rat) (b : Option Rat) : Option Rat :=
  match a with
  | some x => if x = 0 then b else some x
  | none => b

/-- JS `house.BirdAgeInDays || 21`: the stored age when it is a non-zero
number, otherwise the fallback 21 (also when the stored age is `0`). -/
def birdAgeOf (house : House) : Int :=
  match house.birdAgeInDays with
  | some n => if n = 0 then 21 else n
  | none => 21

/-- The guard `bound !== null && value > bound` of the max-bound checks. -/
def boundExceeded (bound : Option Rat) (value : Rat) : Bool :=
  match bound with
  | some b => decide (b < value)
  | none => false

/-- The guard `bound !== null && value < bound` of the min-bound checks. -/
def boundUndershot (bound : Option Rat) (value : Rat) : Bool :=
  match bound with
  | some b => decide (value < b)
  | none => false

/-- The if/else chain of `checkThresholdViolations` that sets
`alertSeverity` and `alertMessage` for one numeric event value:
criticalMax, then criticalMin, then warningMax, then warningMin;
`none` when no guard fires (no alert for this event). -/
def evalEvent (threshold : Threshold) (value : Rat) : Option (String × String) :=
  if boundExceeded threshold.criticalMax value then
    some ("critical",
      threshold.name ++ " is critically high: " ++ toString value ++ threshold.unit ++
        " (threshold: " ++ toString (threshold.criticalMax.getD 0) ++ threshold.unit ++ ")")
  else if boundUndershot threshold.criticalMin value then
    some ("critical",
      threshold.name ++ " is critically low: " ++ toString value ++ threshold.unit ++
        " (threshold: " ++ toString (threshold.criticalMin.getD 0) ++ threshold.unit ++ ")")
  else if boundExceeded threshold.warningMax value then
    some ("warning",
      threshold.name ++ " is high: " ++ toString value ++ threshold.unit ++
        " (threshold: " ++ toString (threshold.warningMax.getD 0) ++ threshold.unit ++ ")")
  else if boundUndershot threshold.warningMin value then
    some ("warning",
      threshold.name ++ " is low: " ++ toString value ++ threshold.unit ++
        " (threshold: " ++ toString (threshold.warningMin.getD 0) ++ threshold.unit ++ ")")
  else none

/-- The `Threshold` column of the alert insert:
`alertSeverity === "critical" ? (criticalMax || criticalMin)
                              : (warningMax || warningMin)`. -/
def recordedThreshold (threshold : Threshold) (severity : String) : Option Rat :=
  if severity = "critical" then jsOr threshold.criticalMax threshold.criticalMin
  else jsOr threshold.warningMax threshold.warningMin

/-- The alert row built by the insert inside `checkThresholdViolations`. -/
def mkAlert (house : House) (threshold : Threshold) (event : SensorEvent)
    (value : Rat) (severity message : String) : Alert :=
  { houseId := house.houseId
    type := "threshold"
    severity := severity
    metric := event.eventType
    value := value
    threshold := recordedThreshold threshold severity
    message := message
    isActive := true }

/-- The durable-store interface the handler consumes: the house lookup
query, `usp_GetThresholdsForAge`, the alert insert and
`usp_InsertSensorEventBatch`.  Each call may fail (`Except.error`),
modelling a thrown store exception; result lists model recordsets. -/
structure Store where
  findHouse : String → Except String (List House)
  getThresholds : String → Int → Except String (List Threshold)
  insertAlert : Alert → Except String Unit
  insertBatch : List SensorEvent → Except String Nat

/-- The inner per-event loop of one house group.  Accumulates the alert
rows actually inserted; returns `some err` as second component when a
store call threw, aborting the remaining events of this house group
(the exception travels to the per-house catch). -/
def runHouseEvents (db : Store) (house : House) (birdAge : Int) :
    List SensorEvent → List Alert → List Alert × Option String
  | [], acc => (acc, none)
  | event :: rest, acc =>
    match event.value with
    | none => runHouseEvents db house birdAge rest acc
    | some v =>
      match db.getThresholds event.eventType birdAge with
      | .error err => (acc, some err)
      | .ok [] => runHouseEvents db house birdAge rest acc
      | .ok (threshold :: _) =>
        match evalEvent threshold v with
        | none => runHouseEvents db house birdAge rest acc
        | some (severity, message) =>
          let alert := mkAlert house threshold event v severity message
          match db.insertAlert alert with
          | .error err => (acc, some err)
          | .ok _ => runHouseEvents db house birdAge rest (acc ++ [alert])

/-- One iteration of the per-house loop, with its try/catch: resolve the
house (empty recordset means skip), compute the bird age with the 21
fallback, then run the events; any store error raised inside is caught
and logged here, keeping the alerts inserted before the failure. -/
def processHouse (db : Store) (houseId : String) (events : List SensorEvent) :
    List Alert :=
  match db.findHouse houseId with
  | .error _ => []
  | .ok [] => []
  | .ok (house :: _) =>
    (runHouseEvents db house (birdAgeOf house) events []).1

/-- One step of building the insertion-ordered `eventsByHouse` map:
append the event to its house bucket, creating the bucket at the end on
first sight of the house. -/
def insertGrouped (acc : List (String × List SensorEvent)) (event : SensorEvent) :
    List (String × List SensorEvent) :=
  if acc.any (fun p => p.1 = event.houseId) then
    acc.map (fun p => if p.1 = event.houseId then (p.1, p.2 ++ [event]) else p)
  else
    acc ++ [(event.houseId, [event])]

/-- The `eventsByHouse` map of `checkThresholdViolations`: buckets in
first-seen order of houseIds, events in arrival order within a bucket. -/
def groupByHouse (events : List SensorEvent) : List (String × List SensorEvent) :=
  events.foldl insertGrouped []

/-- The whole `checkThresholdViolations` function: group by house, then
process each house group under its own catch.  Returns the alert rows
inserted; the function itself never throws. -/
def checkThresholdViolations (db : Store) (events : List SensorEvent) : List Alert :=
  (groupByHouse events).flatMap (fun g => processHouse db g.1 g.2)

/-- A raw message of one delivery: either a string that still needs
`JSON.parse`, or an already structured object whose `events` field may
be missing or not an array (`none`). -/
inductive RawMessage where
  | strMsg (body : String)
  | objMsg (events : Option (List SensorEvent))
deriving Repr

/-- Outcome of one invocation of the handler: whether an exception
propagated to the ingress layer, the total inserted count that was
logged, and the alert rows inserted across the delivery. -/
structure IngestResult where
  aborted : Option String
  totalInserted : Nat
  alerts : List Alert
deriving Repr, DecidableEq

/-- The per-message body of `ingestSensorData` with its per-message
try/catch: parse, skip when there is no events array, persist the batch,
then evaluate thresholds.  Any exception inside, including a failing
`usp_InsertSensorEventBatch` call, is caught by the `catch (parseError)`
block, yielding `(0, [])` for this message. -/
def handleMessage (parse : String → Except String (Option (List SensorEvent)))
    (db : Store) (message : RawMessage) : Nat × List Alert :=
  let parsed : Except String (Option (List SensorEvent)) :=
    match message with
    | .strMsg body => parse body
    | .objMsg events => .ok events
  match parsed with
  | .error _ => (0, [])
  | .ok none => (0, [])
  | .ok (some events) =>
    match db.insertBatch events with
    | .error _ => (0, [])
    | .ok inserted => (inserted, checkThresholdViolations db events)

/-- The top-level `ingestSensorData` handler: establish the pool (a
failure here is caught by the outer catch and rethrown to the ingress
layer), then process each message under the per-message catch, summing
inserted counts. -/
def ingestSensorData (parse : String → Except String (Option (List SensorEvent)))
    (connect : Except String Store) (messages : List RawMessage) : IngestResult :=
  match connect with
  | .error e => { aborted := some e, totalInserted := 0, alerts := [] }
  | .ok db =>
    let acc := messages.foldl
      (fun (acc : Nat × List Alert) message =>
        let r := handleMessage parse db message
        (acc.1 + r.1, acc.2 ++ r.2))
      (0, [])
    { aborted := none, totalInserted := acc.1, alerts := acc.2 }

/-! Spec-side definitions, following the wording of the specification,
used to compare the embedded code against the spec (refinement claims). -/

/-- The four bounds a value can cross, named after the policy fields. -/
inductive Bound where
  | criticalMaxB
  | criticalMinB
  | warningMaxB
  | warningMinB
deriving Repr, DecidableEq

/-- Modelled from the spec: the strict priority order of bound checks —
critical before warning, and within each, max before min. -/
def boundsInPriorityOrder : List Bound :=
  [.criticalMaxB, .criticalMinB, .warningMaxB, .warningMinB]

/-- Whether a given bound of the policy is crossed by the value:
a max bound is crossed when the value is strictly above it, a min bound
when strictly below; a null bound is never crossed. -/
def crossed (t : Threshold) (v : Rat) : Bound → Bool
  | .criticalMaxB => boundExceeded t.criticalMax v
  | .criticalMinB => boundUndershot t.criticalMin v
  | .warningMaxB => boundExceeded t.warningMax v
  | .warningMinB => boundUndershot t.warningMin v

/-- Modelled from the spec: the first bound in priority order that the
value crosses, if any. -/
def firstCrossedBound (t : Threshold) (v : Rat) : Option Bound :=
  boundsInPriorityOrder.find? (crossed t v)

/-- Severity the spec assigns to each crossed bound. -/
def sevOf : Bound → String
  | .criticalMaxB => "critical"
  | .criticalMinB => "critical"
  | .warningMaxB => "warning"
  | .warningMinB => "warning"

/-- Adjective of the spec message template for each crossed bound. -/
def adjOf : Bound → String
  | .criticalMaxB => "critically high"
  | .criticalMinB => "critically low"
  | .warningMaxB => "high"
  | .warningMinB => "low"

/-- The policy field holding a given bound. -/
def boundValOf (t : Threshold) : Bound → Option Rat
  | .criticalMaxB => t.criticalMax
  | .criticalMinB => t.criticalMin
  | .warningMaxB => t.warningMax
  | .warningMinB => t.warningMin

/-- The message the code emits for each crossed bound. -/
def messageOf (t : Threshold) (v : Rat) : Bound → String
  | .criticalMaxB =>
      t.name ++ " is critically high: " ++ toString v ++ t.unit ++
        " (threshold: " ++ toString (t.criticalMax.getD 0) ++ t.unit ++ ")"
  | .criticalMinB =>
      t.name ++ " is critically low: " ++ toString v ++ t.unit ++
        " (threshold: " ++ toString (t.criticalMin.getD 0) ++ t.unit ++ ")"
  | .warningMaxB =>
      t.name ++ " is high: " ++ toString v ++ t.unit ++
        " (threshold: " ++ toString (t.warningMax.getD 0) ++ t.unit ++ ")"
  | .warningMinB =>
      t.name ++ " is low: " ++ toString v ++ t.unit ++
        " (threshold: " ++ toString (t.warningMin.getD 0) ++ t.unit ++ ")"

/-- Modelled from the spec: a critical bound was crossed — the value is
strictly above a non-null criticalMax or strictly below a non-null
criticalMin. -/
def criticalCrossedP (t : Threshold) (v : Rat) : Prop :=
  (∃ b, t.criticalMax = some b ∧ b < v) ∨ (∃ b, t.criticalMin = some b ∧ v < b)

/-- Modelled from the spec: a warning bound was crossed — the value is
strictly above a non-null warningMax or strictly below a non-null
warningMin. -/
def warningCrossedP (t : Threshold) (v : Rat) : Prop :=
  (∃ b, t.warningMax = some b ∧ b < v) ∨ (∃ b, t.warningMin = some b ∧ v < b)

/-! Concrete fixtures used by witnesses and counterexamples. -/

/-- A temperature policy with all four bounds present. -/
def tempPolicy : Threshold :=
  { name := "Temperature", unit := "C", warningMin := some 20, warningMax := some 90,
    criticalMin := some 10, criticalMax := some 100 }

/-- A house whose stored bird age is the day-zero value 0. -/
def houseOne : House :=
  { houseId := "11111111-2222-3333-4444-555555555555", birdAgeInDays := some 0,
    name := "House 1" }

/-- A temperature event with the given numeric value. -/
def tempEvent (v : Option Rat) : SensorEvent :=
  { houseId := "farm-1-house-1", eventType := "temperature",
    timestamp := "2026-01-01T00:00:00Z", value := v, stringValue := none,
    boolValue := none, deviceId := "sensor-1", quality := some 100 }

/-- A store on which every call succeeds: the lookup finds `houseOne`,
the threshold procedure returns `tempPolicy`, inserts succeed. -/
def goodStore : Store :=
  { findHouse := fun _ => .ok [houseOne]
    getThresholds := fun _ _ => .ok [tempPolicy]
    insertAlert := fun _ => .ok ()
    insertBatch := fun events => .ok events.length }

/-- A store whose alert insert throws exactly for alerts recording the
observed value 5, and succeeds otherwise. -/
def emitFailStore : Store :=
  { goodStore with insertAlert := fun a => if a.value = 5 then .error "insert failed" else .ok () }

/-- A store whose event-batch persistence call always throws. -/
def batchFailStore : Store :=
  { goodStore with insertBatch := fun _ => .error "store call failed" }

/-- A parse function for deliveries whose string messages are all
malformed. -/
def parseFail : String → Except String (Option (List SensorEvent)) :=
  fun _ => .error "unexpected token"

/-- An event for a second, distinct house. -/
def otherEvent : SensorEvent :=
  { tempEvent (some 105) with houseId := "other-house" }

/-- A store whose house lookup returns an empty recordset: every houseId
is unknown. -/
def emptyHouseStore : Store :=
  { goodStore with findHouse := fun _ => .ok [] }

/-! Helper lemmas connecting the boolean guards to the spec predicates. -/

theorem boundExceeded_iff (bound : Option Rat) (v : Rat) :
    boundExceeded bound v = true ↔ ∃ b, bound = some b ∧ b < v := by
  cases bound <;> simp [boundExceeded]

theorem boundUndershot_iff (bound : Option Rat) (v : Rat) :
    boundUndershot bound v = true ↔ ∃ b, bound = some b ∧ v < b := by
  cases bound <;> simp [boundUndershot]

theorem criticalCrossedP_iff (t : Threshold) (v : Rat) :
    criticalCrossedP t v ↔
      (boundExceeded t.criticalMax v = true ∨ boundUndershot t.criticalMin v = true) := by
  rw [criticalCrossedP, boundExceeded_iff, boundUndershot_iff]

theorem warningCrossedP_iff (t : Threshold) (v : Rat) :
    warningCrossedP t v ↔
      (boundExceeded t.warningMax v = true ∨ boundUndershot t.warningMin v = true) := by
  rw [warningCrossedP, boundExceeded_iff, boundUndershot_iff]

/-- Claim C1: for an event with a policy, a critical alert is produced iff a
critical bound was crossed; a warning alert only if no critical bound
was crossed but a warning bound was; and if no bound is crossed, no
alert is produced for that event. -/
theorem severity_invariant (t : Threshold) (v : Rat) :
    ((∃ m, evalEvent t v = some ("critical", m)) ↔ criticalCrossedP t v)
    ∧ (∀ m, evalEvent t v = some ("warning", m) →
        ¬ criticalCrossedP t v ∧ warningCrossedP t v)
    ∧ (¬ criticalCrossedP t v → ¬ warningCrossedP t v → evalEvent t v = none) := by
  rw [criticalCrossedP_iff, warningCrossedP_iff]
  cases h1 : boundExceeded t.criticalMax v
    <;> cases h2 : boundUndershot t.criticalMin v
    <;> cases h3 : boundExceeded t.warningMax v
    <;> cases h4 : boundUndershot t.warningMin v
    <;> simp [evalEvent, h1, h2, h3, h4]

/-- Witness for the severity invariant at a concrete policy and value. -/
theorem severity_invariant_witness :
    ∃ m, evalEvent
      { name := "Temperature", unit := "C", warningMin := some 20, warningMax := some 90,
        criticalMin := some 10, criticalMax := some 100 } 5 = some ("critical", m) :=
  (severity_invariant
      { name := "Temperature", unit := "C", warningMin := some 20, warningMax := some 90,
        criticalMin := some 10, criticalMax := some 100 } 5).1.mpr
    (Or.inr ⟨10, rfl, by norm_num⟩)

theorem evalEvent_eq_map_firstCrossed (t : Threshold) (v : Rat) :
    evalEvent t v = (firstCrossedBound t v).map (fun b => (sevOf b, messageOf t v b)) := by
  cases h1 : boundExceeded t.criticalMax v
    <;> cases h2 : boundUndershot t.criticalMin v
    <;> cases h3 : boundExceeded t.warningMax v
    <;> cases h4 : boundUndershot t.warningMin v
    <;> simp [evalEvent, firstCrossedBound, boundsInPriorityOrder, List.find?,
          crossed, sevOf, messageOf, h1, h2, h3, h4]

/-- Claim C2: the evaluator checks bounds in the strict priority order
criticalMax, criticalMin, warningMax, warningMin; the first crossed
bound determines the severity and message (and hence at most one alert
per event is produced), and a null bound is never crossed. -/
theorem eval_priority_order (t : Threshold) (v : Rat) :
    evalEvent t v = (firstCrossedBound t v).map (fun b => (sevOf b, messageOf t v b))
    ∧ (t.criticalMax = none → crossed t v .criticalMaxB = false)
    ∧ (t.criticalMin = none → crossed t v .criticalMinB = false)
    ∧ (t.warningMax = none → crossed t v .warningMaxB = false)
    ∧ (t.warningMin = none → crossed t v .warningMinB = false) := by
  refine ⟨evalEvent_eq_map_firstCrossed t v, ?_, ?_, ?_, ?_⟩
  · intro h; simp [crossed, h, boundExceeded]
  · intro h; simp [crossed, h, boundUndershot]
  · intro h; simp [crossed, h, boundExceeded]
  · intro h; simp [crossed, h, boundUndershot]

/-- Witness for the priority-order theorem: a value violating both
criticalMax and warningMax yields exactly the critical alert, and a null
criticalMax is never crossed. -/
theorem eval_priority_order_witness :
    evalEvent
        { name := "T", unit := "C", warningMin := none, warningMax := some 90,
          criticalMin := none, criticalMax := some 100 } 105 =
      some ("critical", "T is critically high: 105C (threshold: 100C)")
    ∧ crossed
        { name := "T", unit := "C", warningMin := some 20, warningMax := some 90,
          criticalMin := some 10, criticalMax := none } 105 .criticalMaxB = false :=
  ⟨by
    rw [(eval_priority_order
      { name := "T", unit := "C", warningMin := none, warningMax := some 90,
        criticalMin := none, criticalMax := some 100 } 105).1]
    decide,
   (eval_priority_order
      { name := "T", unit := "C", warningMin := some 20, warningMax := some 90,
        criticalMin := some 10, criticalMax := none } 105).2.1 rfl⟩

/-- Claim C8: every message the evaluator produces follows the template
name, " is ", adjective, ": ", value, unit, " (threshold: ", bound,
unit, ")", where the adjective is "critically high"/"critically low"
for critical alerts and "high"/"low" for warning alerts, high/low
matches the side that was crossed, and the bound is the one tested in
the branch that fired. -/
theorem message_template (t : Threshold) (v : Rat) (sev msg : String)
    (h : evalEvent t v = some (sev, msg)) :
    ∃ b bv, firstCrossedBound t v = some b ∧ boundValOf t b = some bv ∧
      msg = t.name ++ " is " ++ adjOf b ++ ": " ++ toString v ++ t.unit ++
        " (threshold: " ++ toString bv ++ t.unit ++ ")" ∧
      (sev = "critical" ↔ (b = .criticalMaxB ∨ b = .criticalMinB)) ∧
      ((b = .criticalMaxB ∨ b = .warningMaxB) → bv < v) ∧
      ((b = .criticalMinB ∨ b = .warningMinB) → v < bv) := by
  rw [evalEvent_eq_map_firstCrossed] at h
  cases hf : firstCrossedBound t v with
  | none => rw [hf] at h; simp at h
  | some b =>
    rw [hf] at h
    simp only [Option.map_some', Option.some.injEq, Prod.mk.injEq] at h
    obtain ⟨hsev, hmsg⟩ := h
    subst hsev; subst hmsg
    have hcross : crossed t v b = true := List.find?_some hf
    cases b with
    | criticalMaxB =>
      simp only [crossed] at hcross
      obtain ⟨bv, hbv, hlt⟩ := (boundExceeded_iff _ _).mp hcross
      refine ⟨.criticalMaxB, bv, rfl, by simp [boundValOf, hbv], ?_, by simp [sevOf], ?_, ?_⟩
      · simp [messageOf, adjOf, hbv, String.append_assoc]
      · intro _; exact hlt
      · simp
    | criticalMinB =>
      simp only [crossed] at hcross
      obtain ⟨bv, hbv, hlt⟩ := (boundUndershot_iff _ _).mp hcross
      refine ⟨.criticalMinB, bv, rfl, by simp [boundValOf, hbv], ?_, by simp [sevOf], ?_, ?_⟩
      · simp [messageOf, adjOf, hbv, String.append_assoc]
      · simp
      · intro _; exact hlt
    | warningMaxB =>
      simp only [crossed] at hcross
      obtain ⟨bv, hbv, hlt⟩ := (boundExceeded_iff _ _).mp hcross
      refine ⟨.warningMaxB, bv, rfl, by simp [boundValOf, hbv], ?_, by simp [sevOf], ?_, ?_⟩
      · simp [messageOf, adjOf, hbv, String.append_assoc]
      · intro _; exact hlt
      · simp
    | warningMinB =>
      simp only [crossed] at hcross
      obtain ⟨bv, hbv, hlt⟩ := (boundUndershot_iff _ _).mp hcross
      refine ⟨.warningMinB, bv, rfl, by simp [boundValOf, hbv], ?_, by simp [sevOf], ?_, ?_⟩
      · simp [messageOf, adjOf, hbv, String.append_assoc]
      · simp
      · intro _; exact hlt

/-- Witness for the message-template theorem at a concrete policy. -/
theorem message_template_witness :
    ∃ b bv,
      firstCrossedBound
          { name := "Temperature", unit := "C", warningMin := some 20, warningMax := some 90,
            criticalMin := some 10, criticalMax := some 100 } 95 = some b ∧
      boundValOf
          { name := "Temperature", unit := "C", warningMin := some 20, warningMax := some 90,
            criticalMin := some 10, criticalMax := some 100 } b = some bv ∧
      "Temperature is high: 95C (threshold: 90C)" =
        "Temperature" ++ " is " ++ adjOf b ++ ": " ++ toString (95 : Rat) ++ "C" ++
          " (threshold: " ++ toString bv ++ "C" ++ ")" ∧
      ("warning" = "critical" ↔ (b = .criticalMaxB ∨ b = .criticalMinB)) ∧
      ((b = .criticalMaxB ∨ b = .warningMaxB) → bv < 95) ∧
      ((b = .criticalMinB ∨ b = .warningMinB) → 95 < bv) :=
  message_template
    { name := "Temperature", unit := "C", warningMin := some 20, warningMax := some 90,
      criticalMin := some 10, criticalMax := some 100 } 95 "warning"
    "Temperature is high: 95C (threshold: 90C)" (by decide)

/-- Claim C7: an event whose numeric value is null or absent is skipped
entirely — for every store, processing the remaining events is all that
happens, so no threshold lookup is made for it and no alert can be
produced by it, whatever its stringValue or boolValue hold. -/
theorem skip_non_numeric (db : Store) (house : House) (birdAge : Int)
    (event : SensorEvent) (rest : List SensorEvent) (acc : List Alert)
    (h : event.value = none) :
    runHouseEvents db house birdAge (event :: rest) acc =
      runHouseEvents db house birdAge rest acc := by
  simp [runHouseEvents, h]

/-- Claim C10: a house whose stored bird age is 0 is threshold-evaluated with
the fallback age 21: the age used for all threshold lookups of its
events is 21. -/
theorem day_zero_bird_age (house : House) (h : house.birdAgeInDays = some 0) :
    birdAgeOf house = 21
    ∧ ∀ (db : Store) (houseId : String) (events : List SensorEvent),
        db.findHouse houseId = .ok [house] →
          processHouse db houseId events = (runHouseEvents db house 21 events []).1 := by
  have hage : birdAgeOf house = 21 := by simp [birdAgeOf, h]
  exact ⟨hage, fun db houseId events hdb => by simp [processHouse, hdb, hage]⟩

/-! Lemmas about the insertion-ordered grouping map. -/

theorem map_keep_of_ne (hid : String) (event : SensorEvent)
    (pre : List (String × List SensorEvent)) (hpre : ∀ p ∈ pre, p.1 ≠ hid) :
    pre.map (fun p => if p.1 = hid then (p.1, p.2 ++ [event]) else p) = pre := by
  induction pre with
  | nil => rfl
  | cons q rest ih =>
    have hq : q.1 ≠ hid := hpre q (List.mem_cons_self q rest)
    have hrest : ∀ p ∈ rest, p.1 ≠ hid := fun p hp => hpre p (List.mem_cons_of_mem _ hp)
    simp [hq, ih hrest]

theorem insertGrouped_hit (hid : String) (event : SensorEvent) (he : event.houseId = hid)
    (pre : List (String × List SensorEvent)) (hpre : ∀ p ∈ pre, p.1 ≠ hid)
    (acc : List SensorEvent) :
    insertGrouped (pre ++ [(hid, acc)]) event = pre ++ [(hid, acc ++ [event])] := by
  have hmap := map_keep_of_ne hid event pre hpre
  simp [insertGrouped, he, hmap]

theorem insertGrouped_new (event : SensorEvent)
    (pre : List (String × List SensorEvent)) (hpre : ∀ p ∈ pre, p.1 ≠ event.houseId) :
    insertGrouped pre event = pre ++ [(event.houseId, [event])] := by
  have hany : (pre.any fun p => decide (p.1 = event.houseId)) = false := by
    rw [List.any_eq_false]
    intro p hp
    simp [hpre p hp]
  simp [insertGrouped, hany]

theorem foldl_insertGrouped_same (hid : String) (pre : List (String × List SensorEvent))
    (hpre : ∀ p ∈ pre, p.1 ≠ hid) :
    ∀ es, (∀ e ∈ es, e.houseId = hid) →
      ∀ acc, es.foldl insertGrouped (pre ++ [(hid, acc)]) = pre ++ [(hid, acc ++ es)]
  | [], _, acc => by simp
  | e :: rest, hes, acc => by
    have he : e.houseId = hid := hes e (List.mem_cons_self e rest)
    have hrest : ∀ x ∈ rest, x.houseId = hid := fun x hx => hes x (List.mem_cons_of_mem _ hx)
    rw [List.foldl_cons, insertGrouped_hit hid e he pre hpre acc,
        foldl_insertGrouped_same hid pre hpre rest hrest (acc ++ [e])]
    simp

theorem groupByHouse_homog (hid : String) (e : SensorEvent) (rest : List SensorEvent)
    (hes : ∀ x ∈ e :: rest, x.houseId = hid) :
    groupByHouse (e :: rest) = [(hid, e :: rest)] := by
  have he : e.houseId = hid := hes e (List.mem_cons_self e rest)
  have hrest : ∀ x ∈ rest, x.houseId = hid := fun x hx => hes x (List.mem_cons_of_mem _ hx)
  rw [groupByHouse, List.foldl_cons, insertGrouped_new e [] (by simp), he]
  simpa using foldl_insertGrouped_same hid [] (by simp) rest hrest [e]

theorem groupByHouse_pair (A B : String) (hAB : A ≠ B)
    (a : SensorEvent) (restA : List SensorEvent) (b : SensorEvent) (restB : List SensorEvent)
    (hA : ∀ x ∈ a :: restA, x.houseId = A) (hB : ∀ x ∈ b :: restB, x.houseId = B) :
    groupByHouse ((a :: restA) ++ (b :: restB)) = [(A, a :: restA), (B, b :: restB)] := by
  have hbB : b.houseId = B := hB b (List.mem_cons_self b restB)
  have hrestB : ∀ x ∈ restB, x.houseId = B := fun x hx => hB x (List.mem_cons_of_mem _ hx)
  have hpre : ∀ p ∈ [(A, a :: restA)], p.1 ≠ b.houseId := by
    intro p hp
    rw [List.mem_singleton] at hp
    subst hp
    rw [hbB]
    exact hAB
  have hpre2 : ∀ p ∈ [(A, a :: restA)], p.1 ≠ B := by
    intro p hp
    rw [List.mem_singleton] at hp
    subst hp
    exact hAB
  rw [groupByHouse, List.foldl_append,
      show (a :: restA).foldl insertGrouped [] = groupByHouse (a :: restA) from rfl,
      groupByHouse_homog A a restA hA, List.foldl_cons,
      insertGrouped_new b [(A, a :: restA)] hpre, hbB]
  simpa using foldl_insertGrouped_same B [(A, a :: restA)] hpre2 restB hrestB [b]

/-- Claim C6: for events whose houseId resolves to no known house (the
lookup succeeds with an empty recordset), the evaluator produces no
alert, skips all events of that house, and its processing completes
without any exception escaping. -/
theorem unknown_house_skipped (db : Store) (houseId : String)
    (h : db.findHouse houseId = .ok []) :
    (∀ events, processHouse db houseId events = [])
    ∧ ∀ events, (∀ e ∈ events, e.houseId = houseId) →
        checkThresholdViolations db events = [] := by
  have hp : ∀ events, processHouse db houseId events = [] := by
    intro events
    simp [processHouse, h]
  refine ⟨hp, ?_⟩
  rintro (_ | ⟨e, rest⟩) hevents
  · rfl
  · rw [checkThresholdViolations, groupByHouse_homog houseId e rest hevents]
    simp [hp]

/-- Witness for the unknown-house theorem on a concrete store. -/
theorem unknown_house_skipped_witness :
    checkThresholdViolations emptyHouseStore [tempEvent (some 105)] = [] :=
  (unknown_house_skipped emptyHouseStore "farm-1-house-1" rfl).2
    [tempEvent (some 105)] (by decide)

/-- Claim C5 (amended): per-house and per-event errors are caught at
house-group scope: a failure inside one house group never aborts the
evaluation of other house groups, each of which yields exactly what it
yields on its own; but within one house group, a store failure on one
event (threshold lookup or alert emission) aborts the remaining events
of that same group, keeping the alerts already inserted. -/
theorem error_isolation_per_house (db : Store) (A B : String) (hAB : A ≠ B)
    (a : SensorEvent) (restA : List SensorEvent) (b : SensorEvent) (restB : List SensorEvent)
    (hA : ∀ x ∈ a :: restA, x.houseId = A) (hB : ∀ x ∈ b :: restB, x.houseId = B) :
    checkThresholdViolations db ((a :: restA) ++ (b :: restB)) =
      processHouse db A (a :: restA) ++ processHouse db B (b :: restB)
    ∧ ∀ (house : House) (birdAge : Int) (e : SensorEvent) (rest : List SensorEvent)
        (acc : List Alert) (v : Rat) (t : Threshold) (trest : List Threshold)
        (severity message err : String),
        e.value = some v →
        db.getThresholds e.eventType birdAge = .ok (t :: trest) →
        evalEvent t v = some (severity, message) →
        db.insertAlert (mkAlert house t e v severity message) = .error err →
        runHouseEvents db house birdAge (e :: rest) acc = (acc, some err) := by
  constructor
  · rw [checkThresholdViolations, groupByHouse_pair A B hAB a restA b restB hA hB]
    simp
  · intro house birdAge e rest acc v t trest severity message err hv hth hev hins
    simp [runHouseEvents, hv, hth, hev, hins]

/-- Witness for the house-scope error isolation on concrete stores. -/
theorem error_isolation_per_house_witness :
    checkThresholdViolations emitFailStore ([tempEvent (some 5)] ++ [otherEvent]) =
      processHouse emitFailStore "farm-1-house-1" [tempEvent (some 5)] ++
        processHouse emitFailStore "other-house" [otherEvent] :=
  (error_isolation_per_house emitFailStore "farm-1-house-1" "other-house" (by decide)
    (tempEvent (some 5)) [] otherEvent [] (by decide) (by decide)).1

/-- Counterexample to claim C5 as stated: on `emitFailStore` the alert
insert for the value-5 event throws; the sibling value-105 event of the
same house group then produces no alert, although on its own it does —
the emitter failure aborted the processing of the remaining events. -/
theorem emitter_failure_aborts_sibling :
    checkThresholdViolations emitFailStore [tempEvent (some 5), tempEvent (some 105)] = []
    ∧ checkThresholdViolations emitFailStore [tempEvent (some 105)] =
        [mkAlert houseOne tempPolicy (tempEvent (some 105)) 105 "critical"
          "Temperature is critically high: 105C (threshold: 100C)"] := by
  decide

/-- Claim C9: alert emission is not deduplicated: a batch of n identical
violating events produces n alert rows, and a batch twice as long
produces twice as many. -/
theorem no_alert_dedup (db : Store) (e : SensorEvent) (house : House) (hrest : List House)
    (t : Threshold) (trest : List Threshold) (v : Rat) (severity message : String)
    (hv : e.value = some v)
    (hHouse : db.findHouse e.houseId = .ok (house :: hrest))
    (hTh : db.getThresholds e.eventType (birdAgeOf house) = .ok (t :: trest))
    (hEval : evalEvent t v = some (severity, message))
    (hIns : db.insertAlert (mkAlert house t e v severity message) = .ok ()) :
    ∀ n, checkThresholdViolations db (List.replicate n e) =
        List.replicate n (mkAlert house t e v severity message)
      ∧ (checkThresholdViolations db (List.replicate (2 * n) e)).length =
          2 * (checkThresholdViolations db (List.replicate n e)).length := by
  have hrun : ∀ n acc,
      runHouseEvents db house (birdAgeOf house) (List.replicate n e) acc =
        (acc ++ List.replicate n (mkAlert house t e v severity message), none) := by
    intro n
    induction n with
    | zero => intro acc; simp [runHouseEvents]
    | succ k ih =>
      intro acc
      rw [List.replicate_succ]
      simp only [runHouseEvents, hv, hTh, hEval, hIns]
      rw [ih]
      simp [List.replicate_succ]
  have hmain : ∀ n, checkThresholdViolations db (List.replicate n e) =
      List.replicate n (mkAlert house t e v severity message) := by
    intro n
    cases n with
    | zero => rfl
    | succ k =>
      have hgrp : groupByHouse (List.replicate (k + 1) e) =
          [(e.houseId, List.replicate (k + 1) e)] := by
        rw [List.replicate_succ]
        exact groupByHouse_homog e.houseId e (List.replicate k e)
          (by
            intro x hx
            rcases List.mem_cons.mp hx with rfl | hxr
            · rfl
            · rw [List.eq_of_mem_replicate hxr])
      rw [checkThresholdViolations, hgrp]
      simp [processHouse, hHouse, hrun (k + 1)]
  intro n
  refine ⟨hmain n, ?_⟩
  rw [hmain n, hmain (2 * n)]
  simp

/-- Witness: two identical violating events produce two alert rows. -/
theorem no_alert_dedup_witness :
    checkThresholdViolations goodStore (List.replicate 2 (tempEvent (some 5))) =
      List.replicate 2 (mkAlert houseOne tempPolicy (tempEvent (some 5)) 5 "critical"
        "Temperature is critically low: 5C (threshold: 10C)") :=
  ((no_alert_dedup goodStore (tempEvent (some 5)) houseOne [] tempPolicy [] 5 "critical"
      "Temperature is critically low: 5C (threshold: 10C)" rfl rfl rfl (by decide) rfl) 2).1

/-- Claim C3 evaluation: a delivery in which the persistence store call
throws is NOT aborted — the per-message catch swallows the exception and
the handler returns normally — while a failed connection establishment
is the store failure that does propagate to the ingress layer. -/
theorem batch_store_failure_swallowed :
    ingestSensorData parseFail (.ok batchFailStore)
        [RawMessage.objMsg (some [tempEvent (some 105)])] =
      { aborted := none, totalInserted := 0, alerts := [] }
    ∧ ingestSensorData parseFail (.error "connect failed")
        [RawMessage.objMsg (some [tempEvent (some 105)])] =
      { aborted := some "connect failed", totalInserted := 0, alerts := [] } := by
  decide

/-- Claim C4 evaluation: for value 5 against `tempPolicy`, the crossed
bound is criticalMin = 10 and the message names 10, yet the inserted
alert records threshold 100 (the un-crossed criticalMax), because the
insert computes the column as criticalMax-or-criticalMin. -/
theorem recorded_threshold_mismatch :
    checkThresholdViolations goodStore [tempEvent (some 5)] =
      [{ houseId := houseOne.houseId, type := "threshold", severity := "critical",
         metric := "temperature", value := 5, threshold := some 100,
         message := "Temperature is critically low: 5C (threshold: 10C)",
         isActive := true }]
    ∧ firstCrossedBound tempPolicy 5 = some .criticalMinB
    ∧ boundValOf tempPolicy .criticalMinB = some 10
    ∧ some (100 : Rat) ≠ some (10 : Rat) := by
  decide

/-- Witness for the skip of events lacking a numeric value. -/
theorem skip_non_numeric_witness :
    runHouseEvents goodStore houseOne 21 [tempEvent none] [] =
      runHouseEvents goodStore houseOne 21 [] [] :=
  skip_non_numeric goodStore houseOne 21 (tempEvent none) [] [] rfl

/-- Witness for the day-zero bird-age fallback on a concrete store. -/
theorem day_zero_bird_age_witness :
    birdAgeOf houseOne = 21
    ∧ processHouse goodStore "farm-1-house-1" [tempEvent (some 5)] =
        (runHouseEvents goodStore houseOne 21 [tempEvent (some 5)] []).1 :=
  ⟨(day_zero_bird_age houseOne rfl).1,
   (day_zero_bird_age houseOne rfl).2 goodStore "farm-1-house-1" [tempEvent (some 5)] rfl⟩

end Cockpit
